import Mathlib

/-!
Verification development for the prox-wazuh-ci repository: a shallow Lean
embedding of the synchronization-and-deployment engine described in spec.md.

The embedded code:
  - `src/server-scripts/pull_rules.py`  (namespace `PullRules`): git-based puller.
  - `src/server-scripts/api_puller.py`  (namespace `ApiPuller`): API-based puller.
  - `src/api-server/models.py`          (namespace `Models`): audit ledger.
  - The Sync Planner of spec section 4.2 (namespace `Planner`), which has no
    counterpart in the source; it is modelled from the spec and marked so.

Modelling conventions: a directory is an association list from file name to
file content (both pullers only ever glob and copy `*.xml` files, so every
modelled file is an xml file and the content string doubles as its content
hash).  External effects (git, subprocess, HTTP, the filesystem outside the
live directories) are injected through an `Env` record whose boolean fields
state which external operation succeeds; the mutable filesystem and log state
threaded through a run is a `World` record.
-/

namespace WazuhCI

/-- Contents of one live or staged directory: file name paired with file
content.  Identity of a file is its name, as in the source. -/
abbrev Dirt := List (String × String)

/-! ## Embedding of src/server-scripts/pull_rules.py -/

namespace PullRules

/-- The configuration keys of `puller_config.json` that `pull_rules.py`
actually branches on (`create_backup`, `auto_restart`). -/
structure Config where
  create_backup : Bool
  auto_restart : Bool
deriving DecidableEq

/-- Injected outcomes of the external operations `pull_rules.py` performs.
`copyFailRules = some k` injects an IOError on the copy of the k-th rule file
inside `deploy_files` (after k files were already copied); `none` means every
copy succeeds.  Likewise for decoders. -/
structure Env where
  config : Config
  /-- the `shutil.copytree` calls in `backup_current` succeed -/
  backupOk : Bool
  /-- `clone_or_pull_repo` succeeds -/
  gitOk : Bool
  /-- contents of `repo/rules` (`none`: that directory does not exist) -/
  repoRules : Option Dirt
  /-- contents of `repo/decoders` (`none`: that directory does not exist) -/
  repoDecoders : Option Dirt
  copyFailRules : Option Nat
  copyFailDecoders : Option Nat
  /-- `systemctl restart wazuh-manager` succeeds (both in `restart_wazuh`
  and when invoked again from `rollback`) -/
  restartOk : Bool
  /-- appending to `/var/log/wazuh/rules_pull.log` in `log_deployment`
  succeeds; when false that call raises -/
  logOk : Bool
deriving DecidableEq

/-- One line of `rules_pull.log`: success flag, rules deployed, decoders
deployed, error text. -/
abbrev LogEntry := Bool × Nat × Nat × String

/-- Mutable state threaded through one run of the git-based puller.
`backup = none` models that the timestamped backup directory was never
created; `some (br, bd)` models an existing backup directory whose `rules`
respectively `decoders` subdirectory is `br` respectively `bd` (each `none`
when the corresponding `copytree` never ran). `restartsAttempted` counts the
`systemctl restart` invocations actually issued. -/
structure World where
  liveRules : Dirt
  liveDecoders : Dirt
  backup : Option (Option Dirt × Option Dirt)
  log : List LogEntry
  restartsAttempted : Nat
deriving DecidableEq

/-- `WazuhRulesPuller.backup_current` (pull_rules.py lines 43-65): returns
immediately when `create_backup` is false (without creating the backup
directory); otherwise creates the backup directory and copies both live
directories into it, reporting failure when a copy raises.  On the injected
failure the first `copytree` raises, so the backup directory exists but holds
no subdirectory. -/
def backup_current (e : Env) (w : World) : Bool × World :=
  if !e.config.create_backup then (true, w)
  else if e.backupOk then
    (true, { w with backup := some (some w.liveRules, some w.liveDecoders) })
  else (false, { w with backup := some (none, none) })

/-- One category of `WazuhRulesPuller.deploy_files` (lines 120-142): when the
repo category directory exists, every live `*.xml` is unlinked and the repo
files are copied one by one; with an injected failure at index `k < length`
the copy loop raises after `k` files, leaving the cleared directory holding
only the first `k` new files.  Returns (resulting directory, files copied,
raised flag). -/
def deployCat (live : Dirt) (repo : Option Dirt) (failAt : Option Nat) :
    Dirt × Nat × Bool :=
  match repo with
  | none => (live, 0, false)
  | some src =>
    match failAt with
    | none => (src, src.length, false)
    | some k => if k < src.length then (src.take k, k, true) else (src, src.length, false)

/-- Result of the deploy step: normal return with the two counts, or a raised
exception carrying the world state at the raise. -/
inductive DeployOutcome where
  | ok (w : World) (ruleCount decoderCount : Nat)
  | err (w : World)
deriving DecidableEq

/-- `WazuhRulesPuller.deploy_files` (lines 109-155): deploys rules then
decoders in place (clear-then-copy per category); an exception during the
rules loop aborts before the decoders are touched. -/
def deploy_files (e : Env) (w : World) : DeployOutcome :=
  let r := deployCat w.liveRules e.repoRules e.copyFailRules
  if r.2.2 then .err { w with liveRules := r.1 }
  else
    let d := deployCat w.liveDecoders e.repoDecoders e.copyFailDecoders
    if d.2.2 then .err { w with liveRules := r.1, liveDecoders := d.1 }
    else .ok { w with liveRules := r.1, liveDecoders := d.1 } r.2.1 d.2.1

/-- `WazuhRulesPuller.restart_wazuh` (lines 157-191): no-op success when
`auto_restart` is false, otherwise one `systemctl restart` invocation whose
success is injected. -/
def restart_wazuh (e : Env) (w : World) : Bool × World :=
  if e.config.auto_restart then
    (e.restartOk, { w with restartsAttempted := w.restartsAttempted + 1 })
  else (true, w)

/-- `WazuhRulesPuller.rollback` (lines 193-223): fails fast when the backup
directory was never created; otherwise restores whichever category
subdirectories exist in the backup, then re-runs `restart_wazuh` when
`auto_restart` is set (its result is ignored), and reports success even when
nothing was restored. -/
def rollback (e : Env) (w : World) : Bool × World :=
  match w.backup with
  | none => (false, w)
  | some (br, bd) =>
    let w1 := match br with
      | some r => { w with liveRules := r }
      | none => w
    let w2 := match bd with
      | some d => { w1 with liveDecoders := d }
      | none => w1
    let w3 := if e.config.auto_restart then (restart_wazuh e w2).2 else w2
    (true, w3)

/-- `WazuhRulesPuller.log_deployment` (lines 273-290): appends one entry to
the local log file; `none` models the write raising. -/
def log_deployment (e : Env) (w : World) (success : Bool) (rc dc : Nat)
    (err : String) : Option World :=
  if e.logOk then some { w with log := w.log ++ [(success, rc, dc, err)] }
  else none

/-- Result of one `pull_and_deploy` run: normal return with the boolean the
function returns, or an exception escaping the function (which only the
failing log write inside the `except` handler can cause). -/
inductive RunResult where
  | ok (success : Bool) (w : World)
  | exn (w : World)
deriving DecidableEq

/-- The world a run ends in, whichever way it ends. -/
def RunResult.world : RunResult → World
  | .ok _ w => w
  | .exn w => w

/-- Whether the run returned `True`. -/
def RunResult.succeeded : RunResult → Bool
  | .ok b _ => b
  | .exn _ => false

/-- Steps 2-4 of `WazuhRulesPuller.pull_and_deploy` (lines 238-271), the part
after the backup gate: git update, then the `try` block around deploy,
restart, success logging; the `except` handler rolls back and logs a failure
record (that second log write raising escapes the function); a failed restart
rolls back and returns `False` without writing any log record. -/
def run_after_backup (e : Env) (w : World) : RunResult :=
  if !e.gitOk then .ok false w
  else
    match deploy_files e w with
    | .err w1 =>
      let w2 := (rollback e w1).2
      match log_deployment e w2 false 0 0 "deploy error" with
      | some w3 => .ok false w3
      | none => .exn w2
    | .ok w1 rc dc =>
      if 0 < rc ∨ 0 < dc then
        let r := restart_wazuh e w1
        if r.1 then
          match log_deployment e r.2 true rc dc "" with
          | some w3 => .ok true w3
          | none =>
            let w3 := (rollback e r.2).2
            match log_deployment e w3 false 0 0 "log error" with
            | some w4 => .ok false w4
            | none => .exn w3
        else .ok false ((rollback e r.2).2)
      else
        match log_deployment e w1 true rc dc "" with
        | some w3 => .ok true w3
        | none =>
          let w3 := (rollback e w1).2
          match log_deployment e w3 false 0 0 "log error" with
          | some w4 => .ok false w4
          | none => .exn w3

/-- `WazuhRulesPuller.pull_and_deploy` (lines 225-271): backup first; a failed
backup aborts with `False` unless `force` is set, in which case the run
proceeds on the world left by the failed backup. -/
def pull_and_deploy (e : Env) (force : Bool) (w : World) : RunResult :=
  let b := backup_current e w
  if !b.1 && !force then .ok false b.2
  else run_after_backup e b.2

end PullRules

/-! ## Embedding of src/server-scripts/api_puller.py -/

namespace ApiPuller

/-- Injected configuration and external-operation outcomes for
`api_puller.py`.  `pkgRules` and `pkgDecoders` are the `rules` and `decoders`
directories of the extracted package (`none`: directory absent from the
archive). -/
structure Env where
  create_backup : Bool
  auto_restart : Bool
  /-- `get_available_files` returns a response (truthy dict) -/
  apiAvailable : Bool
  /-- the `cp -r` calls in `backup_current` succeed -/
  backupOk : Bool
  downloadOk : Bool
  extractOk : Bool
  pkgRules : Option Dirt
  pkgDecoders : Option Dirt
  restartOk : Bool
  /-- the `POST /deploy` in `report_deployment` succeeds -/
  reportOk : Bool
deriving DecidableEq

/-- One report delivered to the API: success flag, rules count, decoders
count, error text. -/
abbrev Report := Bool × Nat × Nat × String

/-- Mutable state threaded through one run of the API-based puller.
`reports` holds the deployment reports actually delivered to the API server. -/
structure World where
  liveRules : Dirt
  liveDecoders : Dirt
  backup : Option (Option Dirt × Option Dirt)
  reports : List Report
  restartsAttempted : Nat
deriving DecidableEq

/-- `WazuhAPIPuller.backup_current` (api_puller.py lines 58-86): same control
flow as the git puller, with `cp -r` in place of `copytree`. -/
def backup_current (e : Env) (w : World) : Bool × World :=
  if !e.create_backup then (true, w)
  else if e.backupOk then
    (true, { w with backup := some (some w.liveRules, some w.liveDecoders) })
  else (false, { w with backup := some (none, none) })

/-- Result of the deploy step of the API puller. -/
inductive DeployOutcome where
  | ok (w : World) (ruleCount decoderCount : Nat)
  | err (w : World)
deriving DecidableEq

/-- The decoders half of `WazuhAPIPuller.deploy_files` (lines 175-185).
`api_puller.py` never imports `shutil` at module scope (lines 7-18; the only
`import shutil` in the file is local to `pull_and_deploy`), so the
`shutil.copy2` on line 184 raises `NameError` on the first copy attempt:
after the live decoders are cleared, a non-empty package decoders directory
always raises, and a deploy that returns at all has copied nothing. -/
def deployDecodersStep (e : Env) (w : World) : DeployOutcome :=
  match e.pkgDecoders with
  | some src =>
    let w1 := { w with liveDecoders := [] }
    if src.isEmpty then .ok w1 0 0 else .err w1
  | none => .ok w 0 0

/-- `WazuhAPIPuller.deploy_files` (lines 156-197): clears the live rules
`*.xml` files, then the first `shutil.copy2` (line 172) raises `NameError`
because `shutil` is unbound at module scope; only with an empty (or absent)
package rules directory does control reach the decoders half, which behaves
the same way.  The returned counts are therefore always `(0, 0)`. -/
def deploy_files (e : Env) (w : World) : DeployOutcome :=
  match e.pkgRules with
  | some src =>
    let w1 := { w with liveRules := [] }
    if src.isEmpty then deployDecodersStep e w1 else .err w1
  | none => deployDecodersStep e w

/-- `WazuhAPIPuller.restart_wazuh` (lines 199-222). -/
def restart_wazuh (e : Env) (w : World) : Bool × World :=
  if e.auto_restart then
    (e.restartOk, { w with restartsAttempted := w.restartsAttempted + 1 })
  else (true, w)

/-- `WazuhAPIPuller.report_deployment` (lines 244-271): posts the report and
swallows every error, returning whether the post succeeded. -/
def report_deployment (e : Env) (w : World) (success : Bool) (rc dc : Nat)
    (err : String) : Bool × World :=
  if e.reportOk then (true, { w with reports := w.reports ++ [(success, rc, dc, err)] })
  else (false, w)

/-- Steps 3-7 of `WazuhAPIPuller.pull_and_deploy` (lines 294-342), the part
after the backup gate: download, extract, then the `try` block around deploy;
the `except` handler only reports the failure and returns `False` — there is
no rollback anywhere in `api_puller.py`. -/
def run_after_backup (e : Env) (w : World) : Bool × World :=
  if !e.downloadOk then (false, w)
  else if !e.extractOk then (false, w)
  else
    match deploy_files e w with
    | .err w1 =>
      (false, (report_deployment e w1 false 0 0 "name shutil is not defined").2)
    | .ok w1 rc dc =>
      if 0 < rc ∨ 0 < dc then
        let r := restart_wazuh e w1
        if r.1 then (true, (report_deployment e r.2 true rc dc "").2)
        else (false, (report_deployment e r.2 false rc dc "Restart failed").2)
      else (true, (report_deployment e w1 true rc dc "").2)

/-- `WazuhAPIPuller.pull_and_deploy` (lines 273-342): API connectivity check,
backup gate (abort on failed backup unless `force`), then the rest of the
pipeline. -/
def pull_and_deploy (e : Env) (force : Bool) (w : World) : Bool × World :=
  if !e.apiAvailable then (false, w)
  else
    let b := backup_current e w
    if !b.1 && !force then (false, b.2)
    else run_after_backup e b.2

end ApiPuller

/-! ## Embedding of src/api-server/models.py -/

namespace Models

/-- One row of the `servers` table (models.py lines 19-31), restricted to the
columns the embedded functions read or write.  Timestamps are abstract
instants (`Nat`), ordered as the ISO strings of the source are ordered. -/
structure ServerRow where
  server_id : String
  first_seen : Nat
  last_seen : Nat
  deployment_count : Nat
  last_success : Option Nat
deriving DecidableEq

/-- One row of the `deployments` table (models.py lines 49-64), restricted to
the columns the embedded functions read or write. -/
structure DeploymentRow where
  server_id : String
  action : String
  rules_count : Nat
  decoders_count : Nat
  success : Bool
  error_message : String
  timestamp : Nat
deriving DecidableEq

/-- The database state: the two tables, each as an ordered list of rows. -/
structure Ledger where
  servers : List ServerRow
  deployments : List DeploymentRow
deriving DecidableEq

/-- The `UPDATE servers SET ...` statement of `log_deployment` (models.py
lines 104-110), applied to one row: a row whose `server_id` matches gets
`last_seen := ts`, `deployment_count` incremented, and `last_success := ts`
only when the logged attempt succeeded (`CASE WHEN ? = 1`); other rows are
untouched. -/
def updRow (n : String) (ts : Nat) (succ : Bool) (s : ServerRow) : ServerRow :=
  if s.server_id == n then
    { s with
      last_seen := ts
      deployment_count := s.deployment_count + 1
      last_success := if succ then some ts else s.last_success }
  else s

/-- `log_deployment` (models.py lines 74-123): insert the deployment row,
then run the `UPDATE` on the servers table, then — only after the update —
check whether a row for this server exists and insert one if not
(`first_seen = last_seen = ts`, `deployment_count = 1`, and no value for
`last_success`, which the `INSERT` on lines 115-118 does not set). -/
def log_deployment (db : Ledger) (n : String) (action : String)
    (rc dc : Nat) (succ : Bool) (err : String) (ts : Nat) : Ledger :=
  let deps := db.deployments ++ [⟨n, action, rc, dc, succ, err, ts⟩]
  let svs := db.servers.map (updRow n ts succ)
  let svs2 := if svs.any (fun s => s.server_id == n) then svs
              else svs ++ [⟨n, ts, ts, 1, none⟩]
  ⟨svs2, deps⟩

/-- A sequence of `log_deployment` calls for one node, each with its
timestamp and success flag (the `action` and counts are irrelevant to the
ledger arithmetic and fixed at the values the `/deploy` endpoint passes). -/
def log_many (db : Ledger) (n : String) (calls : List (Nat × Bool)) : Ledger :=
  calls.foldl (fun d c => log_deployment d n "deploy" 0 0 c.2 "" c.1) db

/-- The aggregate returned by `get_deployment_stats` (models.py lines
185-193), restricted to the fields the claims are about; `successful` and
`failed` are `Option Nat` because SQL `SUM` over an empty row set is `NULL`
(surfaced as `None` by the sqlite3 driver), while `COUNT` is `0`.  The
per-server and per-day breakdowns are not modelled: no claim refers to them. -/
structure Stats where
  total_deployments : Nat
  successful : Option Nat
  failed : Option Nat
  success_rate : ℚ
  timeframe_days : Nat
deriving DecidableEq

/-- `get_deployment_stats` (models.py lines 125-193): restricts to rows with
`timestamp >= now - days`, counts them, sums the success and failure flags
(`NULL` when no row matches), and computes
`successful / total * 100` when `total > 0`, else `0` (the guard
`if total_row and total_row[0] > 0` reduces to `total > 0` since the aggregate
row itself is always present).  The function only executes `SELECT`
statements, so it returns the ledger unchanged as its second component. -/
def get_deployment_stats (db : Ledger) (now : Nat) (days : Nat) : Stats × Ledger :=
  let cutoff := now - days
  let rows := db.deployments.filter (fun r => cutoff ≤ r.timestamp)
  let total := rows.length
  let succ := (rows.filter (fun r => r.success)).length
  let fail := (rows.filter (fun r => !r.success)).length
  let stats : Stats :=
    { total_deployments := total
      successful := if total = 0 then none else some succ
      failed := if total = 0 then none else some fail
      success_rate := if 0 < total then (succ : ℚ) / (total : ℚ) * 100 else 0
      timeframe_days := days }
  (stats, db)

end Models

/-! ## The Sync Planner of spec section 4.2 -/

namespace Planner

/-- Modelled from the spec: the `SyncPlan` record of spec section 3.  The
Sync Planner component is absent from the source under src/ (neither puller
computes a plan; the hash endpoint of app.py is never consulted by a puller),
so this data type follows the words of the spec.  File descriptors are
(name, contentHash) pairs. -/
structure SyncPlan where
  toAdd : Dirt
  toReplace : Dirt
  toRemove : List String
  required : Bool
deriving DecidableEq

/-- Modelled from the spec: `plan(localDescriptors, remoteManifest)` of spec
section 4.2, absent from the source.  A name present remotely but absent
locally goes to `toAdd`; present in both with differing hash to `toReplace`;
present locally but absent remotely to `toRemove`;
`required = !(toAdd.empty && toReplace.empty && toRemove.empty)`. -/
def plan (localFiles remote : Dirt) : SyncPlan :=
  let toAdd := remote.filter (fun f => !(localFiles.any (fun g => g.1 == f.1)))
  let toReplace := remote.filter
    (fun f => localFiles.any (fun g => g.1 == f.1 && g.2 != f.2))
  let toRemove :=
    (localFiles.filter (fun g => !(remote.any (fun f => f.1 == g.1)))).map (·.1)
  ⟨toAdd, toReplace, toRemove, !(toAdd.isEmpty && toReplace.isEmpty && toRemove.isEmpty)⟩

end Planner

/-! ## Concrete scenario inputs used by individual claims -/

namespace Scenarios

/-- Environment for an `api_puller.py` run whose download succeeds and whose
package carries one rule file: used to exhibit the broken deploy step. -/
def c1Env : ApiPuller.Env :=
  { create_backup := true, auto_restart := true, apiAvailable := true,
    backupOk := true, downloadOk := true, extractOk := true,
    pkgRules := some [("new_rule.xml", "newhash")], pkgDecoders := none,
    restartOk := true, reportOk := true }

/-- Pre-deployment state for the same run: one old rule file live. -/
def c1World : ApiPuller.World :=
  { liveRules := [("old_rule.xml", "oldhash")], liveDecoders := [("d.xml", "dh")],
    backup := none, reports := [], restartsAttempted := 0 }

/-- Environment for a `pull_rules.py` run in which everything up to the
restart succeeds and the restart fails. -/
def c3Env : PullRules.Env :=
  { config := { create_backup := true, auto_restart := true },
    backupOk := true, gitOk := true,
    repoRules := some [("b.xml", "new")], repoDecoders := some [],
    copyFailRules := none, copyFailDecoders := none,
    restartOk := false, logOk := true }

/-- Pre-deployment state for the failed-restart run. -/
def c3World : PullRules.World :=
  { liveRules := [("a.xml", "old")], liveDecoders := [],
    backup := none, log := [], restartsAttempted := 0 }

/-- Environment for a fully successful `pull_rules.py` run whose repo content
is byte-identical to the live content. -/
def c4Env : PullRules.Env :=
  { config := { create_backup := true, auto_restart := true },
    backupOk := true, gitOk := true,
    repoRules := some [("r.xml", "h")], repoDecoders := none,
    copyFailRules := none, copyFailDecoders := none,
    restartOk := true, logOk := true }

/-- Live state already identical to the repo content of `c4Env`. -/
def c4World : PullRules.World :=
  { liveRules := [("r.xml", "h")], liveDecoders := [],
    backup := none, log := [], restartsAttempted := 0 }

/-- Environment for two consecutive fully successful `pull_rules.py` runs
against an unchanged repo. -/
def c5Env : PullRules.Env :=
  { config := { create_backup := true, auto_restart := true },
    backupOk := true, gitOk := true,
    repoRules := some [("a.xml", "x")], repoDecoders := some [],
    copyFailRules := none, copyFailDecoders := none,
    restartOk := true, logOk := true }

/-- Initial state before the first of the two runs. -/
def c5W0 : PullRules.World :=
  { liveRules := [], liveDecoders := [],
    backup := none, log := [], restartsAttempted := 0 }

/-- State after the first run: the input of the second run. -/
def c5W1 : PullRules.World := (PullRules.pull_and_deploy c5Env false c5W0).world

/-- Environment for a `pull_rules.py` run in which deploy and restart succeed
and only the audit log write fails. -/
def c7Env : PullRules.Env :=
  { config := { create_backup := true, auto_restart := true },
    backupOk := true, gitOk := true,
    repoRules := some [("r1.xml", "new")], repoDecoders := some [],
    copyFailRules := none, copyFailDecoders := none,
    restartOk := true, logOk := false }

/-- Pre-deployment state for the failed-log-write run. -/
def c7World : PullRules.World :=
  { liveRules := [("r1.xml", "old")], liveDecoders := [],
    backup := none, log := [], restartsAttempted := 0 }

/-- Environment for an `api_puller.py` run with an empty package (the only
kind its deploy step can survive) whose report post fails. -/
def c7aEnv : ApiPuller.Env :=
  { create_backup := true, auto_restart := true, apiAvailable := true,
    backupOk := true, downloadOk := true, extractOk := true,
    pkgRules := some [], pkgDecoders := some [],
    restartOk := true, reportOk := false }

/-- Pre-deployment state for the failed-report run. -/
def c7aWorld : ApiPuller.World :=
  { liveRules := [], liveDecoders := [],
    backup := none, reports := [], restartsAttempted := 0 }

/-- Environment for a `pull_rules.py` run used by the claim C2 and C6
witnesses: backup fails, everything else would succeed. -/
def c6Env : PullRules.Env :=
  { config := { create_backup := true, auto_restart := true },
    backupOk := false, gitOk := true,
    repoRules := some [("a.xml", "x")], repoDecoders := some [],
    copyFailRules := none, copyFailDecoders := none,
    restartOk := true, logOk := true }

/-- World for the C6 witness run of the git puller. -/
def c6World : PullRules.World :=
  { liveRules := [("a.xml", "old")], liveDecoders := [],
    backup := none, log := [], restartsAttempted := 0 }

/-- Environment for an `api_puller.py` run whose backup fails. -/
def c6aEnv : ApiPuller.Env :=
  { create_backup := true, auto_restart := true, apiAvailable := true,
    backupOk := false, downloadOk := true, extractOk := true,
    pkgRules := some [("n.xml", "nh")], pkgDecoders := none,
    restartOk := true, reportOk := true }

/-- World for the C6 witness run of the API puller. -/
def c6aWorld : ApiPuller.World :=
  { liveRules := [("a.xml", "old")], liveDecoders := [],
    backup := none, reports := [], restartsAttempted := 0 }

/-- Environment for the C2 witness: a normal API run delivering one rule
file. -/
def c2Env : ApiPuller.Env :=
  { create_backup := true, auto_restart := true, apiAvailable := true,
    backupOk := true, downloadOk := true, extractOk := true,
    pkgRules := some [("r.xml", "rh")], pkgDecoders := some [],
    restartOk := true, reportOk := true }

/-- World for the C2 witness run. -/
def c2World : ApiPuller.World :=
  { liveRules := [("old.xml", "oh")], liveDecoders := [("d.xml", "dh")],
    backup := none, reports := [], restartsAttempted := 0 }

end Scenarios

/-! ## Ledger lemmas -/

namespace Models

theorem updRow_server_id (n : String) (ts : Nat) (succ : Bool) (s : ServerRow) :
    (updRow n ts succ s).server_id = s.server_id := by
  unfold updRow; split <;> rfl

theorem filter_map_updRow (n : String) (ts : Nat) (succ : Bool) (l : List ServerRow) :
    (l.map (updRow n ts succ)).filter (fun s => s.server_id == n)
      = (l.filter (fun s => s.server_id == n)).map (updRow n ts succ) := by
  induction l with
  | nil => rfl
  | cons a l ih =>
    by_cases h : (a.server_id == n) = true <;>
      simp [List.filter_cons, updRow_server_id, h, ih]

theorem log_deployment_filter_existing (db : Ledger) (n a : String) (rc dc : Nat)
    (succ : Bool) (err : String) (ts : Nat) (r : ServerRow)
    (hf : db.servers.filter (fun s => s.server_id == n) = [r]) :
    (log_deployment db n a rc dc succ err ts).servers.filter (fun s => s.server_id == n)
        = [updRow n ts succ r]
    ∧ (log_deployment db n a rc dc succ err ts).deployments.filter
        (fun d => d.server_id == n)
        = db.deployments.filter (fun d => d.server_id == n) ++ [⟨n, a, rc, dc, succ, err, ts⟩] := by
  have hmap : (db.servers.map (updRow n ts succ)).filter (fun s => s.server_id == n)
      = [updRow n ts succ r] := by
    rw [filter_map_updRow, hf]; rfl
  have hmem : updRow n ts succ r
      ∈ (db.servers.map (updRow n ts succ)).filter (fun s => s.server_id == n) := by
    rw [hmap]; exact List.mem_singleton_self _
  have hany : (db.servers.map (updRow n ts succ)).any (fun s => s.server_id == n) = true := by
    rcases List.mem_filter.mp hmem with ⟨h1, h2⟩
    exact List.any_eq_true.mpr ⟨_, h1, h2⟩
  constructor
  · simp [log_deployment, hany, hmap]
  · simp [log_deployment, List.filter_append]

theorem log_deployment_filter_fresh (db : Ledger) (n a : String) (rc dc : Nat)
    (succ : Bool) (err : String) (ts : Nat)
    (hf : db.servers.filter (fun s => s.server_id == n) = []) :
    (log_deployment db n a rc dc succ err ts).servers.filter (fun s => s.server_id == n)
        = [⟨n, ts, ts, 1, none⟩]
    ∧ (log_deployment db n a rc dc succ err ts).deployments.filter
        (fun d => d.server_id == n)
        = db.deployments.filter (fun d => d.server_id == n) ++ [⟨n, a, rc, dc, succ, err, ts⟩] := by
  have hmap : (db.servers.map (updRow n ts succ)).filter (fun s => s.server_id == n) = [] := by
    rw [filter_map_updRow, hf]; rfl
  have hany : (db.servers.map (updRow n ts succ)).any (fun s => s.server_id == n) = false := by
    by_contra hc
    rw [Bool.not_eq_false, List.any_eq_true] at hc
    rcases hc with ⟨x, hx1, hx2⟩
    have hx : x ∈ (db.servers.map (updRow n ts succ)).filter (fun s => s.server_id == n) :=
      List.mem_filter.mpr ⟨hx1, hx2⟩
    rw [hmap] at hx
    exact absurd hx (List.not_mem_nil x)
  constructor
  · simp [log_deployment, hany, hmap, List.filter_append]
  · simp [log_deployment, List.filter_append]

theorem log_many_existing (n : String) (calls : List (Nat × Bool)) :
    ∀ (db : Ledger) (r : ServerRow),
    db.servers.filter (fun s => s.server_id == n) = [r] →
    ∃ r2, (log_many db n calls).servers.filter (fun s => s.server_id == n) = [r2]
      ∧ r2.server_id = r.server_id
      ∧ r2.first_seen = r.first_seen
      ∧ r2.deployment_count = r.deployment_count + calls.length
      ∧ r2.last_seen = (calls.map Prod.fst).getLastD r.last_seen
      ∧ ((log_many db n calls).deployments.filter (fun d => d.server_id == n)).length
          = (db.deployments.filter (fun d => d.server_id == n)).length + calls.length := by
  induction calls with
  | nil =>
    intro db r hf
    exact ⟨r, hf, rfl, rfl, rfl, rfl, rfl⟩
  | cons c cs ih =>
    intro db r hf
    have hr : (r.server_id == n) = true := by
      have hmem : r ∈ db.servers.filter (fun s => s.server_id == n) := by
        rw [hf]; exact List.mem_singleton_self _
      exact (List.mem_filter.mp hmem).2
    have step := log_deployment_filter_existing db n "deploy" 0 0 c.2 "" c.1 r hf
    obtain ⟨r2, h1, h2, h3, h4, h5, h6⟩ :=
      ih (log_deployment db n "deploy" 0 0 c.2 "" c.1) (updRow n c.1 c.2 r) step.1
    have hc1 : (updRow n c.1 c.2 r).deployment_count = r.deployment_count + 1 := by
      unfold updRow; rw [if_pos hr]
    have hc2 : (updRow n c.1 c.2 r).first_seen = r.first_seen := by
      unfold updRow; rw [if_pos hr]
    have hc3 : (updRow n c.1 c.2 r).last_seen = c.1 := by
      unfold updRow; rw [if_pos hr]
    rw [step.2] at h6
    have hfold : log_many db n (c :: cs)
        = log_many (log_deployment db n "deploy" 0 0 c.2 "" c.1) n cs := rfl
    rw [hfold]
    refine ⟨r2, ?_, ?_, ?_, ?_, ?_, ?_⟩
    · exact h1
    · exact h2.trans (updRow_server_id n c.1 c.2 r)
    · exact h3.trans hc2
    · rw [List.length_cons]
      rw [hc1] at h4
      omega
    · rw [List.map_cons, List.getLastD_cons]
      rw [hc3] at h5
      exact h5
    · simp only [List.length_append, List.length_cons, List.length_nil] at h6
      rw [List.length_cons]
      omega

theorem le_getLastD (l : List Nat) (d : Nat) :
    ∀ d0, (∀ b ∈ l, d ≤ b) → d ≤ d0 → d ≤ l.getLastD d0 := by
  induction l with
  | nil => intro d0 _ h0; exact h0
  | cons a l ih =>
    intro d0 h h0
    rw [List.getLastD_cons]
    exact ih a (fun b hb => h b (List.mem_cons_of_mem a hb)) (h a (List.mem_cons_self a l))

theorem length_filter_not_add {α : Type} (p : α → Bool) (l : List α) :
    (l.filter p).length + (l.filter (fun x => !p x)).length = l.length := by
  induction l with
  | nil => rfl
  | cons a l ih =>
    rcases Bool.eq_false_or_eq_true (p a) with h | h <;>
      simp [List.filter_cons, h] <;> omega

end Models

/-! ## Run lemmas for the git-based puller -/

namespace PullRules

theorem deployCat_rules_ok (l : Dirt) (rs : Dirt) :
    deployCat l (some rs) none = (rs, rs.length, false) := by
  simp [deployCat]

theorem deployCat_no_fail (l : Dirt) (r : Option Dirt) :
    (deployCat l r none).2.2 = false := by
  cases r <;> simp [deployCat]

/-- A fully successful run of `pull_and_deploy`: backup, git update, deploy,
restart and log write all succeed and the repo rules directory is non-empty.
The run returns `True`, the live directories end as the repo content, one
success record with the full file counts is appended, and exactly one restart
is issued — whatever the starting state was. -/
theorem run_allOk (e : Env) (force : Bool) (w : World) (rs : Dirt)
    (hcb : e.config.create_backup = true) (hbk : e.backupOk = true)
    (hgit : e.gitOk = true) (hr : e.repoRules = some rs)
    (hcf1 : e.copyFailRules = none) (hcf2 : e.copyFailDecoders = none)
    (har : e.config.auto_restart = true) (hro : e.restartOk = true)
    (hlg : e.logOk = true) (hne : rs ≠ []) :
    pull_and_deploy e force w = .ok true
      { liveRules := rs,
        liveDecoders := (deployCat w.liveDecoders e.repoDecoders none).1,
        backup := some (some w.liveRules, some w.liveDecoders),
        log := w.log ++ [(true, rs.length,
          (deployCat w.liveDecoders e.repoDecoders none).2.1, "")],
        restartsAttempted := w.restartsAttempted + 1 } := by
  have hlen : 0 < rs.length := List.length_pos.mpr hne
  have hdec := deployCat_no_fail w.liveDecoders e.repoDecoders
  simp [pull_and_deploy, backup_current, run_after_backup, deploy_files,
        restart_wazuh, log_deployment, hcb, hbk, hgit, hr, hcf1, hcf2, har, hro,
        hlg, hlen, deployCat_rules_ok, hdec]

/-- A run in which everything succeeds except the restart: the deploy happens,
the restart fails, and `rollback` restores both live directories from the
backup; the run returns `False`, writes no log record, and has issued two
restart attempts (the failed one and the one re-run by `rollback`). -/
theorem run_restartFail (e : Env) (force : Bool) (w : World) (rs : Dirt)
    (hcb : e.config.create_backup = true) (hbk : e.backupOk = true)
    (hgit : e.gitOk = true) (hr : e.repoRules = some rs)
    (hcf1 : e.copyFailRules = none) (hcf2 : e.copyFailDecoders = none)
    (har : e.config.auto_restart = true) (hro : e.restartOk = false)
    (hne : rs ≠ []) :
    pull_and_deploy e force w = .ok false
      { liveRules := w.liveRules,
        liveDecoders := w.liveDecoders,
        backup := some (some w.liveRules, some w.liveDecoders),
        log := w.log,
        restartsAttempted := w.restartsAttempted + 2 } := by
  have hlen : 0 < rs.length := List.length_pos.mpr hne
  have hdec := deployCat_no_fail w.liveDecoders e.repoDecoders
  simp [pull_and_deploy, backup_current, run_after_backup, deploy_files,
        restart_wazuh, rollback, hcb, hbk, hgit, hr, hcf1, hcf2, har, hro,
        hlen, deployCat_rules_ok, hdec]

end PullRules

/-! ## Run lemmas for the API-based puller -/

namespace ApiPuller

/-- Any run of the deploy step that reaches a non-empty package rules
directory: the live rules are cleared and the unbound `shutil` raises, and
`pull_and_deploy` only reports the failure. -/
theorem api_run_nameError (e : Env) (w : World) (rs : Dirt)
    (hdl : e.downloadOk = true) (hex : e.extractOk = true)
    (hr : e.pkgRules = some rs) (hne : rs ≠ []) :
    run_after_backup e w
      = (false, (report_deployment e { w with liveRules := [] } false 0 0
          "name shutil is not defined").2) := by
  have hie : rs.isEmpty = false := by
    cases rs
    · exact absurd rfl hne
    · rfl
  simp [run_after_backup, deploy_files, hdl, hex, hr, hie]

theorem api_report_fields (e : Env) (w : World) (success : Bool) (rc dc : Nat)
    (err : String) :
    (report_deployment e w success rc dc err).2.liveRules = w.liveRules
    ∧ (report_deployment e w success rc dc err).2.liveDecoders = w.liveDecoders := by
  cases hrep : e.reportOk <;> simp [report_deployment, hrep]

theorem api_backup_fields (e : Env) (w : World) :
    (backup_current e w).2.liveRules = w.liveRules
    ∧ (backup_current e w).2.liveDecoders = w.liveDecoders
    ∧ (backup_current e w).2.reports = w.reports := by
  cases h1 : e.create_backup <;> cases h2 : e.backupOk <;>
    simp [backup_current, h1, h2]

/-- Whenever the API check passes and the backup gate lets the run through
(backup disabled, backup succeeded, or force), `pull_and_deploy` is the rest
of the pipeline applied to the post-backup world. -/
theorem api_gate (e : Env) (force : Bool) (w : World) (hav : e.apiAvailable = true)
    (hb : e.create_backup = false ∨ e.backupOk = true ∨ force = true) :
    pull_and_deploy e force w = run_after_backup e (backup_current e w).2 := by
  rcases hb with hb | hb | hb
  · simp [pull_and_deploy, backup_current, hav, hb]
  · have h1 : (backup_current e w).1 = true := by
      cases hc : e.create_backup <;> simp [backup_current, hc, hb]
    simp [pull_and_deploy, hav, h1]
  · simp [pull_and_deploy, hav, hb]

end ApiPuller

/-! ## Claims -/

/-- Claim C1: the claim states that every deployment run replaces each live
category atomically, a failure between staging and activation leaving the
live directories byte-identical to the pre-deployment state.  The code
violates this: in `api_puller.py` the deploy step deletes every live rules
xml file and then raises (unbound `shutil`) before copying anything, and the
handler performs no restore, so the run below ends with the live rules
directory empty — neither the old file set, nor the new one, and not
byte-identical to the pre-deployment state.  This theorem evaluates the
embedded code at that failing input. -/
theorem claim_C1 :
    ApiPuller.pull_and_deploy Scenarios.c1Env false Scenarios.c1World
      = (false,
         { liveRules := [],
           liveDecoders := [("d.xml", "dh")],
           backup := some (some [("old_rule.xml", "oldhash")], some [("d.xml", "dh")]),
           reports := [(false, 0, 0, "name shutil is not defined")],
           restartsAttempted := 0 })
    ∧ (ApiPuller.pull_and_deploy Scenarios.c1Env false Scenarios.c1World).2.liveRules
        ≠ Scenarios.c1World.liveRules
    ∧ (ApiPuller.pull_and_deploy Scenarios.c1Env false Scenarios.c1World).2.liveRules
        ≠ [("new_rule.xml", "newhash")] := by
  refine ⟨by decide, by decide, by decide⟩

/-- Claim C2: in the API-based puller, every run of `pull_and_deploy` that
reaches the deploy step with a package whose rules directory holds at least
one xml file first deletes every live rules xml file, then raises the
unbound-name error on the first copy; the handler reports failure and the
run returns `False` with no rollback, leaving the live rules directory
empty. -/
theorem claim_C2 (e : ApiPuller.Env) (force : Bool) (w : ApiPuller.World) (rs : Dirt)
    (hav : e.apiAvailable = true)
    (hb : e.create_backup = false ∨ e.backupOk = true ∨ force = true)
    (hdl : e.downloadOk = true) (hex : e.extractOk = true)
    (hr : e.pkgRules = some rs) (hne : rs ≠ []) :
    ∃ w2, ApiPuller.pull_and_deploy e force w = (false, w2)
      ∧ w2.liveRules = []
      ∧ w2.liveDecoders = w.liveDecoders
      ∧ (e.reportOk = true →
          w2.reports = w.reports ++ [(false, 0, 0, "name shutil is not defined")]) := by
  rw [ApiPuller.api_gate e force w hav hb,
      ApiPuller.api_run_nameError e ((ApiPuller.backup_current e w).2) rs hdl hex hr hne]
  obtain ⟨hb1, hb2, hb3⟩ := ApiPuller.api_backup_fields e w
  refine ⟨_, rfl, ?_, ?_, ?_⟩
  · cases hrep : e.reportOk <;> simp [ApiPuller.report_deployment, hrep]
  · cases hrep : e.reportOk <;> simp [ApiPuller.report_deployment, hrep, hb2]
  · intro hrep
    simp [ApiPuller.report_deployment, hrep, hb3]

/-- Witness for claim C2 at a concrete run: one rule file in the package, one
old rule file live. -/
theorem claim_C2_witness :
    (Scenarios.c2Env.apiAvailable = true
      ∧ Scenarios.c2Env.backupOk = true
      ∧ Scenarios.c2Env.downloadOk = true
      ∧ Scenarios.c2Env.extractOk = true
      ∧ Scenarios.c2Env.pkgRules = some [("r.xml", "rh")]
      ∧ ([("r.xml", "rh")] : Dirt) ≠ [])
    ∧ (∃ w2, ApiPuller.pull_and_deploy Scenarios.c2Env false Scenarios.c2World = (false, w2)
        ∧ w2.liveRules = []
        ∧ w2.liveDecoders = Scenarios.c2World.liveDecoders
        ∧ (Scenarios.c2Env.reportOk = true →
            w2.reports = Scenarios.c2World.reports
              ++ [(false, 0, 0, "name shutil is not defined")])) :=
  ⟨⟨by decide, by decide, by decide, by decide, by decide, by decide⟩,
    claim_C2 Scenarios.c2Env false Scenarios.c2World [("r.xml", "rh")]
      (by decide) (Or.inr (Or.inl (by decide))) (by decide) (by decide)
      (by decide) (by decide)⟩

/-- Claim C3, counterexample to the claim as stated: in a `pull_rules.py` run
in which the deploy succeeds and the restart (the activation step) fails,
rollback does restore the live directories, but the run records nothing at
all — `log_deployment` is not called on this path, so no outcome (let alone
a distinct `ROLLED_BACK` outcome, which exists nowhere in the code) is
recorded for the run. -/
theorem claim_C3_cex :
    (PullRules.pull_and_deploy Scenarios.c3Env false Scenarios.c3World).succeeded = false
    ∧ (PullRules.pull_and_deploy Scenarios.c3Env false Scenarios.c3World).world.log = []
    ∧ (PullRules.pull_and_deploy Scenarios.c3Env false Scenarios.c3World).world.liveRules
        = Scenarios.c3World.liveRules := by
  refine ⟨by decide, by decide, by decide⟩

/-- Claim C3, amended: in the git-based puller, for every run in which backup
and deploy succeed and the restart of the consuming process fails, the engine
restores both live directories from the backup snapshot taken before the
swap, so the final live directories equal the pre-run ones and the run
returns a failure outcome; however no deployment record is written on this
path (the code has no distinct ROLLED_BACK outcome), and the API-based puller
has no rollback at all (its deploy step cannot even complete with files).
The theorem exhibits the exact final state: live directories and log
unchanged, backup retained, two restart attempts issued. -/
theorem claim_C3 (e : PullRules.Env) (force : Bool) (w : PullRules.World) (rs : Dirt)
    (hcb : e.config.create_backup = true) (hbk : e.backupOk = true)
    (hgit : e.gitOk = true) (hr : e.repoRules = some rs)
    (hcf1 : e.copyFailRules = none) (hcf2 : e.copyFailDecoders = none)
    (har : e.config.auto_restart = true) (hro : e.restartOk = false)
    (hne : rs ≠ []) :
    PullRules.pull_and_deploy e force w = .ok false
      { liveRules := w.liveRules,
        liveDecoders := w.liveDecoders,
        backup := some (some w.liveRules, some w.liveDecoders),
        log := w.log,
        restartsAttempted := w.restartsAttempted + 2 } :=
  PullRules.run_restartFail e force w rs hcb hbk hgit hr hcf1 hcf2 har hro hne

/-- Witness for claim C3 at a concrete run with one repo rule file and a
failing restart. -/
theorem claim_C3_witness :
    (Scenarios.c3Env.config.create_backup = true
      ∧ Scenarios.c3Env.backupOk = true
      ∧ Scenarios.c3Env.gitOk = true
      ∧ Scenarios.c3Env.repoRules = some [("b.xml", "new")]
      ∧ Scenarios.c3Env.restartOk = false
      ∧ ([("b.xml", "new")] : Dirt) ≠ [])
    ∧ PullRules.pull_and_deploy Scenarios.c3Env false Scenarios.c3World = .ok false
        { liveRules := Scenarios.c3World.liveRules,
          liveDecoders := Scenarios.c3World.liveDecoders,
          backup := some (some Scenarios.c3World.liveRules, some Scenarios.c3World.liveDecoders),
          log := Scenarios.c3World.log,
          restartsAttempted := Scenarios.c3World.restartsAttempted + 2 } :=
  ⟨⟨by decide, by decide, by decide, by decide, by decide, by decide⟩,
    claim_C3 Scenarios.c3Env false Scenarios.c3World [("b.xml", "new")]
      (by decide) (by decide) (by decide) (by decide) (by decide) (by decide)
      (by decide) (by decide) (by decide)⟩

/-- Claim C4, counterexample to the claim as stated: a fully successful
`pull_rules.py` run whose repo content is byte-identical to the live content
still issues a restart of the consuming process — the pullers never compute
a sync plan, so a restart is not restricted to runs where content actually
changed. -/
theorem claim_C4_cex :
    (PullRules.pull_and_deploy Scenarios.c4Env false Scenarios.c4World).world.liveRules
        = Scenarios.c4World.liveRules
    ∧ (PullRules.pull_and_deploy Scenarios.c4Env false Scenarios.c4World).world.liveDecoders
        = Scenarios.c4World.liveDecoders
    ∧ (PullRules.pull_and_deploy Scenarios.c4Env false Scenarios.c4World).world.restartsAttempted
        = Scenarios.c4World.restartsAttempted + 1 := by
  refine ⟨by decide, by decide, by decide⟩

/-- Claim C4, amended: the sync plan of the spec (modelled here from the spec,
since no puller in the source computes one) has `required = false` for every
local tree and remote manifest with identical name-to-hash sets (names
unique on each side); the code, however, does not consult any plan: a git
puller run whose repo rules equal the live rules file-for-file still deploys
them all and restarts the consuming process, so a restart is not limited to
runs where content actually changed. -/
theorem claim_C4 :
    (∀ L M : Dirt, (L.map Prod.fst).Nodup → (M.map Prod.fst).Nodup →
        (∀ p : String × String, p ∈ L ↔ p ∈ M) →
        (Planner.plan L M).required = false)
    ∧ (∀ (e : PullRules.Env) (force : Bool) (w : PullRules.World),
        e.config.create_backup = true → e.backupOk = true → e.gitOk = true →
        e.repoRules = some w.liveRules → e.repoDecoders = none →
        e.copyFailRules = none → e.copyFailDecoders = none →
        e.config.auto_restart = true → e.restartOk = true → e.logOk = true →
        w.liveRules ≠ [] →
        ∃ w2, PullRules.pull_and_deploy e force w = .ok true w2
          ∧ w2.liveRules = w.liveRules ∧ w2.liveDecoders = w.liveDecoders
          ∧ w2.restartsAttempted = w.restartsAttempted + 1) := by
  constructor
  · intro L M hL hM hset
    have hAdd : ∀ f ∈ M, (L.any (fun g => g.1 == f.1)) = true := by
      intro f hf
      exact List.any_eq_true.mpr ⟨f, (hset f).mpr hf, beq_self_eq_true f.1⟩
    have hRem : ∀ g ∈ L, (M.any (fun f => f.1 == g.1)) = true := by
      intro g hg
      exact List.any_eq_true.mpr ⟨g, (hset g).mp hg, beq_self_eq_true g.1⟩
    have hRep : ∀ f ∈ M, (L.any (fun g => g.1 == f.1 && g.2 != f.2)) = false := by
      intro f hf
      by_contra hc
      rw [Bool.not_eq_false, List.any_eq_true] at hc
      obtain ⟨g, hgL, hb⟩ := hc
      rw [Bool.and_eq_true] at hb
      have hname : g.1 = f.1 := eq_of_beq hb.1
      have hfL : L.Mem f := (hset f).mpr hf
      have hgf : g = f := List.inj_on_of_nodup_map hL hgL hfL hname
      rw [hgf] at hb
      exact absurd rfl (bne_iff_ne.mp hb.2)
    have e1 : M.filter (fun f => !(L.any (fun g => g.1 == f.1))) = [] := by
      rw [List.filter_eq_nil_iff]
      intro f hf
      simp [hAdd f hf]
    have e2 : L.filter (fun g => !(M.any (fun f => f.1 == g.1))) = [] := by
      rw [List.filter_eq_nil_iff]
      intro g hg
      simp [hRem g hg]
    have e3 : M.filter (fun f => L.any (fun g => g.1 == f.1 && g.2 != f.2)) = [] := by
      rw [List.filter_eq_nil_iff]
      intro f hf
      simp [hRep f hf]
    simp [Planner.plan, e1, e2, e3]
  · intro e force w hcb hbk hgit hr hd hcf1 hcf2 har hro hlg hne
    refine ⟨_, PullRules.run_allOk e force w w.liveRules hcb hbk hgit hr hcf1 hcf2
      har hro hlg hne, rfl, ?_, rfl⟩
    simp [hd, PullRules.deployCat]

/-- Witness for claim C4: both halves instantiated — identical one-file trees
give `required = false`, and the concrete identical-content run of the git
puller still restarts. -/
theorem claim_C4_witness :
    (Planner.plan [("a.xml", "h1")] [("a.xml", "h1")]).required = false
    ∧ (Scenarios.c4Env.repoRules = some Scenarios.c4World.liveRules
        ∧ Scenarios.c4World.liveRules ≠ [])
    ∧ (∃ w2, PullRules.pull_and_deploy Scenarios.c4Env false Scenarios.c4World = .ok true w2
        ∧ w2.liveRules = Scenarios.c4World.liveRules
        ∧ w2.liveDecoders = Scenarios.c4World.liveDecoders
        ∧ w2.restartsAttempted = Scenarios.c4World.restartsAttempted + 1) :=
  ⟨claim_C4.1 [("a.xml", "h1")] [("a.xml", "h1")] (by decide) (by decide)
      (fun _ => Iff.rfl),
    ⟨by decide, by decide⟩,
    claim_C4.2 Scenarios.c4Env false Scenarios.c4World (by decide) (by decide)
      (by decide) (by decide) (by decide) (by decide) (by decide) (by decide)
      (by decide) (by decide) (by decide)⟩

/-- Claim C5, counterexample to the claim as stated: running the git puller a
second time against an unchanged repo is not a no-op — the second run
succeeds but logs a record with one file applied (not zero) and issues a
second restart. -/
theorem claim_C5_cex :
    (PullRules.pull_and_deploy Scenarios.c5Env false Scenarios.c5W1).succeeded = true
    ∧ (PullRules.pull_and_deploy Scenarios.c5Env false Scenarios.c5W1).world.log
        = Scenarios.c5W1.log ++ [(true, 1, 0, "")]
    ∧ (PullRules.pull_and_deploy Scenarios.c5Env false Scenarios.c5W1).world.restartsAttempted = 2
    ∧ (PullRules.pull_and_deploy Scenarios.c5Env false Scenarios.c5W1).world.liveRules
        = Scenarios.c5W1.liveRules := by
  refine ⟨by decide, by decide, by decide, by decide⟩

/-- Claim C5, amended: running the git puller twice in succession against an
unchanged repo leaves the live directories unchanged by the second run (the
final state is idempotent), and the second run succeeds — but it re-applies
every file rather than zero (its log record carries the full file counts) and
restarts the consuming process again. -/
theorem claim_C5 (e : PullRules.Env) (force : Bool) (w : PullRules.World) (rs ds : Dirt)
    (hcb : e.config.create_backup = true) (hbk : e.backupOk = true)
    (hgit : e.gitOk = true) (hr : e.repoRules = some rs)
    (hd : e.repoDecoders = some ds)
    (hcf1 : e.copyFailRules = none) (hcf2 : e.copyFailDecoders = none)
    (har : e.config.auto_restart = true) (hro : e.restartOk = true)
    (hlg : e.logOk = true) (hne : rs ≠ []) :
    ∃ w1 w2, PullRules.pull_and_deploy e force w = .ok true w1
      ∧ PullRules.pull_and_deploy e force w1 = .ok true w2
      ∧ w2.liveRules = w1.liveRules
      ∧ w2.liveDecoders = w1.liveDecoders
      ∧ w2.log = w1.log ++ [(true, rs.length, ds.length, "")]
      ∧ w2.restartsAttempted = w1.restartsAttempted + 1 := by
  refine ⟨_, _,
    PullRules.run_allOk e force w rs hcb hbk hgit hr hcf1 hcf2 har hro hlg hne,
    PullRules.run_allOk e force _ rs hcb hbk hgit hr hcf1 hcf2 har hro hlg hne,
    ?_, ?_, ?_, ?_⟩ <;>
  simp [hd, PullRules.deployCat]

/-- Witness for claim C5 at the concrete two-run scenario. -/
theorem claim_C5_witness :
    (Scenarios.c5Env.config.create_backup = true
      ∧ Scenarios.c5Env.gitOk = true
      ∧ Scenarios.c5Env.repoRules = some [("a.xml", "x")]
      ∧ Scenarios.c5Env.repoDecoders = some []
      ∧ ([("a.xml", "x")] : Dirt) ≠ [])
    ∧ (∃ w1 w2, PullRules.pull_and_deploy Scenarios.c5Env false Scenarios.c5W0 = .ok true w1
        ∧ PullRules.pull_and_deploy Scenarios.c5Env false w1 = .ok true w2
        ∧ w2.liveRules = w1.liveRules
        ∧ w2.liveDecoders = w1.liveDecoders
        ∧ w2.log = w1.log ++ [(true, ([("a.xml", "x")] : Dirt).length, ([] : Dirt).length, "")]
        ∧ w2.restartsAttempted = w1.restartsAttempted + 1) :=
  ⟨⟨by decide, by decide, by decide, by decide, by decide⟩,
    claim_C5 Scenarios.c5Env false Scenarios.c5W0 [("a.xml", "x")] []
      (by decide) (by decide) (by decide) (by decide) (by decide) (by decide)
      (by decide) (by decide) (by decide) (by decide) (by decide)⟩

/-- Claim C6: for every run in which the backup step fails, if force mode was
not requested the run aborts immediately — returning `False` with the live
directories, log and reports untouched (only the empty backup directory was
created) — and if force mode was requested the run proceeds without a backup,
continuing with the remaining pipeline.  Stated and proved for both pullers. -/
theorem claim_C6 (ep : PullRules.Env) (ea : ApiPuller.Env)
    (wp : PullRules.World) (wa : ApiPuller.World)
    (h1 : ep.config.create_backup = true) (h2 : ep.backupOk = false)
    (h3 : ea.create_backup = true) (h4 : ea.backupOk = false)
    (h5 : ea.apiAvailable = true) :
    PullRules.pull_and_deploy ep false wp
        = .ok false { wp with backup := some (none, none) }
    ∧ PullRules.pull_and_deploy ep true wp
        = PullRules.run_after_backup ep { wp with backup := some (none, none) }
    ∧ ApiPuller.pull_and_deploy ea false wa
        = (false, { wa with backup := some (none, none) })
    ∧ ApiPuller.pull_and_deploy ea true wa
        = ApiPuller.run_after_backup ea { wa with backup := some (none, none) } := by
  refine ⟨?_, ?_, ?_, ?_⟩ <;>
    simp [PullRules.pull_and_deploy, PullRules.backup_current,
      ApiPuller.pull_and_deploy, ApiPuller.backup_current, h1, h2, h3, h4, h5]

/-- Witness for claim C6 at a concrete failed-backup run of each puller. -/
theorem claim_C6_witness :
    (Scenarios.c6Env.config.create_backup = true
      ∧ Scenarios.c6Env.backupOk = false
      ∧ Scenarios.c6aEnv.create_backup = true
      ∧ Scenarios.c6aEnv.backupOk = false
      ∧ Scenarios.c6aEnv.apiAvailable = true)
    ∧ (PullRules.pull_and_deploy Scenarios.c6Env false Scenarios.c6World
        = .ok false { Scenarios.c6World with backup := some (none, none) }
      ∧ PullRules.pull_and_deploy Scenarios.c6Env true Scenarios.c6World
        = PullRules.run_after_backup Scenarios.c6Env
            { Scenarios.c6World with backup := some (none, none) }
      ∧ ApiPuller.pull_and_deploy Scenarios.c6aEnv false Scenarios.c6aWorld
        = (false, { Scenarios.c6aWorld with backup := some (none, none) })
      ∧ ApiPuller.pull_and_deploy Scenarios.c6aEnv true Scenarios.c6aWorld
        = ApiPuller.run_after_backup Scenarios.c6aEnv
            { Scenarios.c6aWorld with backup := some (none, none) }) :=
  ⟨⟨by decide, by decide, by decide, by decide, by decide⟩,
    claim_C6 Scenarios.c6Env Scenarios.c6aEnv Scenarios.c6World Scenarios.c6aWorld
      (by decide) (by decide) (by decide) (by decide) (by decide)⟩

/-- Claim C7: the claim states that a failure while writing the audit record
never changes the runs own success classification nor triggers further state
change.  `api_puller.py` conforms (`report_deployment` swallows every error:
second conjunct), but `pull_rules.py` calls `log_deployment(True, ...)`
inside the deploy `try` block, so when the log write raises after a fully
successful deployment the handler rolls the successful deployment back, the
second log write raises out of `pull_and_deploy`, and the run ends in an
uncaught exception with the deployment undone — evaluated here at that
failing input (the final state shows the deployed rules reverted to the old
content, two restarts, and an empty log). -/
theorem claim_C7 :
    PullRules.pull_and_deploy Scenarios.c7Env false Scenarios.c7World
      = .exn
        { liveRules := [("r1.xml", "old")],
          liveDecoders := [],
          backup := some (some [("r1.xml", "old")], some []),
          log := [],
          restartsAttempted := 2 }
    ∧ (ApiPuller.pull_and_deploy Scenarios.c7aEnv false Scenarios.c7aWorld).1 = true := by
  refine ⟨by decide, by decide⟩

/-- Claim C8: for every node and every non-empty sequence of `log_deployment`
calls for that node (any mix of success and failure, timestamps
non-decreasing), starting from a ledger with no record of the node, the node
ends with exactly one server row whose `deployment_count` equals the number
of calls, which also equals the number of deployment rows stored for the
node, and whose `last_seen` is at least its `first_seen`. -/
theorem claim_C8 (db : Models.Ledger) (n : String) (calls : List (Nat × Bool))
    (hs : db.servers.filter (fun s => s.server_id == n) = [])
    (hd : db.deployments.filter (fun d => d.server_id == n) = [])
    (hne : calls ≠ [])
    (hsorted : (calls.map Prod.fst).Pairwise (· ≤ ·)) :
    ∃ r, (Models.log_many db n calls).servers.filter (fun s => s.server_id == n) = [r]
      ∧ r.deployment_count = calls.length
      ∧ ((Models.log_many db n calls).deployments.filter
          (fun d => d.server_id == n)).length = calls.length
      ∧ r.first_seen ≤ r.last_seen := by
  cases calls with
  | nil => exact absurd rfl hne
  | cons c cs =>
    have step := Models.log_deployment_filter_fresh db n "deploy" 0 0 c.2 "" c.1 hs
    obtain ⟨r2, h1, h2, h3, h4, h5, h6⟩ :=
      Models.log_many_existing n cs (Models.log_deployment db n "deploy" 0 0 c.2 "" c.1)
        ⟨n, c.1, c.1, 1, none⟩ step.1
    have hfold : Models.log_many db n (c :: cs)
        = Models.log_many (Models.log_deployment db n "deploy" 0 0 c.2 "" c.1) n cs := rfl
    rw [hfold]
    rw [show (⟨n, c.1, c.1, 1, none⟩ : Models.ServerRow).deployment_count = 1 from rfl] at h4
    rw [step.2, hd] at h6
    simp only [List.nil_append, List.length_cons, List.length_nil] at h6
    refine ⟨r2, h1, ?_, ?_, ?_⟩
    · rw [h4]
      simp only [List.length_cons]
      omega
    · rw [h6]
      simp only [List.length_cons]
      omega
    · rw [h3, h5]
      rw [List.map_cons] at hsorted
      exact Models.le_getLastD (cs.map Prod.fst) c.1 c.1
        (List.pairwise_cons.mp hsorted).1 (Nat.le_refl c.1)

/-- Witness for claim C8: a fresh node with two calls, one success then one
failure. -/
theorem claim_C8_witness :
    (((⟨[], []⟩ : Models.Ledger).servers.filter (fun s => s.server_id == "node-a") = [])
      ∧ (([(1, true), (2, false)] : List (Nat × Bool)) ≠ [])
      ∧ (([(1, true), (2, false)] : List (Nat × Bool)).map Prod.fst).Pairwise (· ≤ ·))
    ∧ (∃ r, (Models.log_many ⟨[], []⟩ "node-a" [(1, true), (2, false)]).servers.filter
          (fun s => s.server_id == "node-a") = [r]
        ∧ r.deployment_count = ([(1, true), (2, false)] : List (Nat × Bool)).length
        ∧ ((Models.log_many ⟨[], []⟩ "node-a" [(1, true), (2, false)]).deployments.filter
            (fun d => d.server_id == "node-a")).length
            = ([(1, true), (2, false)] : List (Nat × Bool)).length
        ∧ r.first_seen ≤ r.last_seen) :=
  ⟨⟨by decide, by decide, by decide⟩,
    claim_C8 ⟨[], []⟩ "node-a" [(1, true), (2, false)]
      (by decide) (by decide) (by decide) (by decide)⟩

/-- Claim C9, counterexample to the claim as stated: on a ledger with no
record in the window, `get_deployment_stats` returns `successful = NULL` and
`failed = NULL` (SQL `SUM` over an empty row set), so the successful and
failed counts are not numbers that sum to the total — the sum property fails
for the empty window. -/
theorem claim_C9_cex :
    (Models.get_deployment_stats ⟨[], []⟩ 10 7).1.successful = none
    ∧ (Models.get_deployment_stats ⟨[], []⟩ 10 7).1.total_deployments = 0
    ∧ ¬ (∃ s f : Nat, (Models.get_deployment_stats ⟨[], []⟩ 10 7).1.successful = some s
          ∧ (Models.get_deployment_stats ⟨[], []⟩ 10 7).1.failed = some f
          ∧ s + f = (Models.get_deployment_stats ⟨[], []⟩ 10 7).1.total_deployments) := by
  refine ⟨by decide, by decide, ?_⟩
  rintro ⟨s, f, hs, -, -⟩
  rw [show (Models.get_deployment_stats ⟨[], []⟩ 10 7).1.successful = none from rfl] at hs
  exact Option.noConfusion hs

/-- Claim C9, amended: for every ledger state and window, `queryStats` counts
only deployment records with timestamp at or after now minus the window,
mutates no stored row, and — whenever at least one record falls in the
window — its successful and failed counts are numbers summing to the total,
with success rate successful/total*100; on an empty window the total is zero,
both counts are NULL and the success rate is 0. -/
theorem claim_C9 (db : Models.Ledger) (now days : Nat) :
    (Models.get_deployment_stats db now days).2 = db
    ∧ (Models.get_deployment_stats db now days).1.total_deployments
        = (db.deployments.filter (fun r => now - days ≤ r.timestamp)).length
    ∧ (Models.get_deployment_stats db now days).1.timeframe_days = days
    ∧ ((Models.get_deployment_stats db now days).1.total_deployments = 0 →
        (Models.get_deployment_stats db now days).1.successful = none
        ∧ (Models.get_deployment_stats db now days).1.failed = none
        ∧ (Models.get_deployment_stats db now days).1.success_rate = 0)
    ∧ (0 < (Models.get_deployment_stats db now days).1.total_deployments →
        ∃ s f, (Models.get_deployment_stats db now days).1.successful = some s
          ∧ (Models.get_deployment_stats db now days).1.failed = some f
          ∧ s + f = (Models.get_deployment_stats db now days).1.total_deployments
          ∧ (Models.get_deployment_stats db now days).1.success_rate
              = (s : ℚ) / (((Models.get_deployment_stats db now days).1.total_deployments : Nat) : ℚ) * 100) := by
  refine ⟨rfl, rfl, rfl, ?_, ?_⟩
  · intro h
    have h0 : (db.deployments.filter (fun r => now - days ≤ r.timestamp)).length = 0 := h
    have hnp : ¬ 0 < (db.deployments.filter (fun r => now - days ≤ r.timestamp)).length := by
      omega
    refine ⟨?_, ?_, ?_⟩
    · simp only [Models.get_deployment_stats]
      rw [if_pos h0]
    · simp only [Models.get_deployment_stats]
      rw [if_pos h0]
    · simp only [Models.get_deployment_stats]
      rw [if_neg hnp]
  · intro h
    have h1 : 0 < (db.deployments.filter (fun r => now - days ≤ r.timestamp)).length := h
    have h0 : (db.deployments.filter (fun r => now - days ≤ r.timestamp)).length ≠ 0 := by
      omega
    refine ⟨((db.deployments.filter (fun r => now - days ≤ r.timestamp)).filter
        (fun r => r.success)).length,
      ((db.deployments.filter (fun r => now - days ≤ r.timestamp)).filter
        (fun r => !r.success)).length, ?_, ?_, ?_, ?_⟩
    · simp only [Models.get_deployment_stats]
      rw [if_neg h0]
    · simp only [Models.get_deployment_stats]
      rw [if_neg h0]
    · exact Models.length_filter_not_add (fun r => r.success)
        (db.deployments.filter (fun r => now - days ≤ r.timestamp))
    · simp only [Models.get_deployment_stats]
      rw [if_pos h1]

/-- Witness for claim C9 at a ledger holding one successful record inside the
window. -/
theorem claim_C9_witness :
    (0 < (Models.get_deployment_stats ⟨[], [⟨"n1", "deploy", 0, 0, true, "", 5⟩]⟩ 10 7).1.total_deployments)
    ∧ (Models.get_deployment_stats ⟨[], [⟨"n1", "deploy", 0, 0, true, "", 5⟩]⟩ 10 7).2
        = ⟨[], [⟨"n1", "deploy", 0, 0, true, "", 5⟩]⟩
    ∧ (∃ s f, (Models.get_deployment_stats ⟨[], [⟨"n1", "deploy", 0, 0, true, "", 5⟩]⟩ 10 7).1.successful = some s
        ∧ (Models.get_deployment_stats ⟨[], [⟨"n1", "deploy", 0, 0, true, "", 5⟩]⟩ 10 7).1.failed = some f
        ∧ s + f = (Models.get_deployment_stats ⟨[], [⟨"n1", "deploy", 0, 0, true, "", 5⟩]⟩ 10 7).1.total_deployments
        ∧ (Models.get_deployment_stats ⟨[], [⟨"n1", "deploy", 0, 0, true, "", 5⟩]⟩ 10 7).1.success_rate
            = (s : ℚ) / (((Models.get_deployment_stats ⟨[], [⟨"n1", "deploy", 0, 0, true, "", 5⟩]⟩ 10 7).1.total_deployments : Nat) : ℚ) * 100) :=
  ⟨by decide,
    (claim_C9 ⟨[], [⟨"n1", "deploy", 0, 0, true, "", 5⟩]⟩ 10 7).1,
    (claim_C9 ⟨[], [⟨"n1", "deploy", 0, 0, true, "", 5⟩]⟩ 10 7).2.2.2.2 (by decide)⟩

/-- Claim C10: when a node has no server row yet, its first recorded
deployment — even a successful one — creates a row with `deployment_count = 1`
and `last_success` unset (the success timestamp is applied by an `UPDATE`
executed before the row exists); a second successful deployment is the first
to populate `last_success`. -/
theorem claim_C10 (db : Models.Ledger) (n : String) (rc dc ts1 ts2 : Nat)
    (hs : db.servers.filter (fun s => s.server_id == n) = []) :
    (Models.log_deployment db n "deploy" rc dc true "" ts1).servers.filter
        (fun s => s.server_id == n) = [⟨n, ts1, ts1, 1, none⟩]
    ∧ (Models.log_deployment (Models.log_deployment db n "deploy" rc dc true "" ts1)
        n "deploy" rc dc true "" ts2).servers.filter (fun s => s.server_id == n)
        = [⟨n, ts1, ts2, 2, some ts2⟩] := by
  have step1 := Models.log_deployment_filter_fresh db n "deploy" rc dc true "" ts1 hs
  refine ⟨step1.1, ?_⟩
  have step2 := Models.log_deployment_filter_existing
    (Models.log_deployment db n "deploy" rc dc true "" ts1) n "deploy" rc dc true "" ts2
    ⟨n, ts1, ts1, 1, none⟩ step1.1
  rw [step2.1]
  simp [Models.updRow]

/-- Witness for claim C10 at a fresh node and two successive successful
deployments. -/
theorem claim_C10_witness :
    ((⟨[], []⟩ : Models.Ledger).servers.filter (fun s => s.server_id == "s1") = [])
    ∧ ((Models.log_deployment ⟨[], []⟩ "s1" "deploy" 3 1 true "" 1).servers.filter
        (fun s => s.server_id == "s1") = [⟨"s1", 1, 1, 1, none⟩]
      ∧ (Models.log_deployment (Models.log_deployment ⟨[], []⟩ "s1" "deploy" 3 1 true "" 1)
          "s1" "deploy" 3 1 true "" 2).servers.filter (fun s => s.server_id == "s1")
          = [⟨"s1", 1, 2, 2, some 2⟩]) :=
  ⟨by decide, claim_C10 ⟨[], []⟩ "s1" 3 1 1 2 (by decide)⟩

end WazuhCI
